import Mathlib

/-
  Verification of the ryuo topology-discovery agent
  (src/ryuo/topology/topology_local.py and src/ryuo/topology/common.py)
  against its natural-language specification.

  Shallow embedding conventions:
  - Python objects become Lean structures holding exactly the attributes the
    corresponding __init__ sets; an access to an attribute the constructor
    never set is embedded as an AttributeError value.
  - Fallible Python code returns Except PyError; a raised exception that a
    caller does not catch propagates as an error value.
  - time.time() values and the float time constants are modelled as integers
    counting hundredths of a second, which makes every source constant exact
    (.05 -> 5, .9 -> 90, 5. -> 500, 10. -> 1000); every verified property is a
    threshold comparison in time, so this order-isomorphic rescaling is
    faithful and no floating-point rounding is involved.
  - The per-port and per-link registries (PortDataState, LinkState) are
    imported by the source from the ryu library; their operations are
    modelled from the spec (sections 4.1 and 4.2), each marked with a doc
    comment starting "Modelled from the spec:".
-/

namespace Ryuo

/-- Python exceptions that the embedded code can raise. -/
inductive PyError where
  | attributeError
  | typeError
  | keyError
deriving DecidableEq

/-- An OpenFlow port descriptor (msg.desc / an entry of the attach port list):
the fields the source reads. Hardware address and name are numeric tokens. -/
structure OFPPort where
  port_no : Nat
  hw_addr : Nat
  name : Nat
  state : Nat
  config : Nat
deriving DecidableEq

/-- An ofproto module: the constants the source reads from it, plus the
protocol version (OpenFlow 1.2 = 3, 1.3 = 4, 1.4 = 5 on the wire). -/
structure Ofproto where
  OFP_VERSION : Nat
  OFPP_MAX : Nat
  OFPPS_LINK_DOWN : Nat
  OFPPC_PORT_DOWN : Nat
deriving DecidableEq

/-- The OpenFlow 1.2 wire version, the threshold in every
`OFP_VERSION >= ofproto_v1_2.OFP_VERSION` test of the source. -/
def OFP_VERSION_1_2 : Nat := 3

/-- ryuo.topology.common.PortData: the attributes its __init__ sets.
Note the source stores `ofproto.OFPPC_PORT_DOWN` under the misspelled
attribute name `OFPPC_Root_DOWN`, so a PortData has no attribute named
OFPPC_PORT_DOWN. -/
structure PortData where
  dpid : Nat
  ofpport : OFPPort
  OFPP_MAX : Nat
  OFPPS_LINK_DOWN : Nat
  OFPPC_Root_DOWN : Nat
deriving DecidableEq

/-- PortData.__init__(dpid, ofpport, ofproto=None, port_no=None): it
unconditionally reads ofproto.OFPP_MAX (and the two status bits), so a call
with ofproto omitted or None raises AttributeError on NoneType. The port_no
parameter is accepted and ignored by the source. -/
def mkPortData (dpid : Nat) (ofpport : OFPPort) (ofproto : Option Ofproto) :
    Except PyError PortData :=
  match ofproto with
  | none => .error .attributeError
  | some ofp =>
    .ok { dpid := dpid, ofpport := ofpport, OFPP_MAX := ofp.OFPP_MAX,
          OFPPS_LINK_DOWN := ofp.OFPPS_LINK_DOWN,
          OFPPC_Root_DOWN := ofp.OFPPC_PORT_DOWN }

/-- ryuo.topology.common.Port: the attributes its __init__ sets
(dpid, port_no, hw_addr, name from the descriptor, and the PortData itself).
There is no `ofpport` attribute on Port. -/
structure Port where
  dpid : Nat
  port_no : Nat
  hw_addr : Nat
  name : Nat
  port_data : PortData
deriving DecidableEq

/-- Port.__init__(port_data). -/
def Port.ofPortData (pd : PortData) : Port :=
  { dpid := pd.dpid, port_no := pd.ofpport.port_no,
    hw_addr := pd.ofpport.hw_addr, name := pd.ofpport.name, port_data := pd }

/-- Port.is_reserved: the source is `return self.port_no > self.ofpport.OFPP_MAX`,
but Port.__init__ never sets a `self.ofpport` attribute (the descriptor lives
at self.port_data.ofpport and the bound at self.port_data.OFPP_MAX), so the
attribute lookup raises AttributeError before any comparison happens. -/
def Port.is_reserved (_ : Port) : Except PyError Bool :=
  .error .attributeError

/-- Port.is_down: `(ofpport.state & OFPPS_LINK_DOWN) > 0 or
(ofpport.config & self.port_data.OFPPC_PORT_DOWN)`. Python short-circuits:
when the link-state bit is set the first disjunct is returned; otherwise the
second disjunct reads self.port_data.OFPPC_PORT_DOWN, an attribute PortData
never sets (it is stored as OFPPC_Root_DOWN), raising AttributeError. -/
def Port.is_down (p : Port) : Except PyError Bool :=
  if p.port_data.ofpport.state &&& p.port_data.OFPPS_LINK_DOWN > 0 then
    .ok true
  else
    .error .attributeError

/-- Port.__eq__: by dpid and port number only. -/
def portEq (a b : Port) : Bool :=
  a.dpid == b.dpid && a.port_no == b.port_no

/-- Port.__hash__ is `hash((self.dpid, self.port_no))`: a function of the
(dpid, port number) pair alone, modelled by an injective pairing. -/
def portHash (p : Port) : Nat :=
  Nat.pair p.dpid p.port_no

/-- ryu.topology.switches.Link: a directed pair of ports. -/
structure Link where
  src : Port
  dst : Port
deriving DecidableEq

/-- Link.__eq__: by both ends, each compared by Port equality. -/
def linkEq (a b : Link) : Bool :=
  portEq a.src b.src && portEq a.dst b.dst

/-- Modelled from the spec: the PortState record held by the PortRegistry for
every registered port (section 3): the probe payload, last-sent and
last-received timestamps, consecutive-missed-probe counter and liveness flag.
Field names follow the source's accesses (timestamp = lastSentAt,
sent = missedCount, lldp_data = probeBlob). -/
structure PortState where
  is_down : Bool
  lldp_data : Nat
  timestamp : Option ℤ
  lastReceivedAt : Option ℤ
  sent : Nat
deriving DecidableEq

/-- Modelled from the spec: the PortRegistry (section 4.1), a dictionary from
Port to PortState keyed by Port equality, whose iteration order is stable
within one snapshot. Embedded as an ordered association list. -/
abbrev PortDataState := List (Port × PortState)

/-- Dictionary lookup in the PortRegistry: first entry whose key equals the
given port under Port equality. -/
def findPort : PortDataState → Port → Option PortState
  | [], _ => none
  | (k, v) :: rest, p => if portEq k p then some v else findPort rest p

/-- Replace the value stored at the first key equal to the given port. -/
def replaceFirst : PortDataState → Port → PortState → PortDataState
  | [], _, _ => []
  | (k, w) :: rest, p, v =>
    if portEq k p then (k, v) :: rest else (k, w) :: replaceFirst rest p v

/-- Modelled from the spec: PortRegistry.markSent (section 4.1) sets
lastSentAt := now, increments missedCount (probe outstanding), and returns
the updated state; a port not in the registry raises KeyError. -/
def PortDataState.lldp_sent (ps : PortDataState) (port : Port) (now : ℤ) :
    Except PyError (PortDataState × PortState) :=
  match findPort ps port with
  | none => .error .keyError
  | some pd =>
    let pd2 : PortState :=
      { pd with timestamp := some now, sent := pd.sent + 1 }
    .ok (replaceFirst ps port pd2, pd2)

/-- Modelled from the spec: PortRegistry.markReceived (section 4.1) sets
lastReceivedAt := now and resets missedCount to zero; a port not in the
registry raises KeyError. -/
def PortDataState.lldp_received (ps : PortDataState) (port : Port) (now : ℤ) :
    Except PyError PortDataState :=
  match findPort ps port with
  | none => .error .keyError
  | some pd =>
    .ok (replaceFirst ps port { pd with lastReceivedAt := some now, sent := 0 })

/-- Modelled from the spec: PortRegistry.setDown (section 4.1) updates the
isDown flag and reports whether the value changed; the new value is obtained
from the Port (via Port.is_down), since the agent passes only the port. -/
def PortDataState.set_down (ps : PortDataState) (port : Port) :
    Except PyError (PortDataState × Bool) := do
  let down ← port.is_down
  match findPort ps port with
  | none => .error .keyError
  | some pd =>
    .ok (replaceFirst ps port { pd with is_down := down }, pd.is_down != down)

/-- Modelled from the spec: PortRegistry.register (section 4.1) inserts a
fresh PortState with empty timestamps and zero missed count; a duplicate add
is recovered locally (section 7), leaving the registry unchanged. -/
def PortDataState.add_port (ps : PortDataState) (port : Port)
    (lldp_data : Nat) : PortDataState :=
  match findPort ps port with
  | some _ => ps
  | none =>
    ps ++ [(port, { is_down := false, lldp_data := lldp_data,
                    timestamp := none, lastReceivedAt := none, sent := 0 })]

/-- Dictionary deletion (del self.ports[k]): removes the first entry equal to
the key, raising KeyError when absent. -/
def PortDataState.del_port : PortDataState → Port → Except PyError PortDataState
  | [], _ => .error .keyError
  | (k, v) :: rest, p =>
    if portEq k p then .ok rest
    else do
      let rest2 ← PortDataState.del_port rest p
      .ok ((k, v) :: rest2)

/-- Modelled from the spec: the LinkRegistry (section 4.2): at most one entry
per (src, dst) pair with its lastRefreshedAt timestamp, plus the
source-to-destination peer map used by peerOf. -/
structure LinkState where
  entries : List (Link × ℤ)
  peerMap : List (Port × Port)
deriving DecidableEq

/-- Modelled from the spec: LinkRegistry.peerOf (section 4.2): the current
destination recorded for a source port, if any. -/
def LinkState.get_peer (ls : LinkState) (src : Port) : Option Port :=
  (ls.peerMap.find? (fun kv => portEq kv.1 src)).map Prod.snd

/-- Modelled from the spec: retirement of one link (section 4.4) removes the
entry from the LinkRegistry (and its peer-map binding). -/
def LinkState.link_down (ls : LinkState) (l : Link) : LinkState :=
  { entries := ls.entries.filter (fun e => !(linkEq e.1 l)),
    peerMap := ls.peerMap.filter (fun kv => !(portEq kv.1 l.src)) }

/-- Modelled from the spec: LinkRegistry.removeBySrc (section 4.2) removes
the entry whose source is the given port and yields its former peer; none
when no entry exists (the caller treats that as KeyError). -/
def LinkState.port_deleted (ls : LinkState) (src : Port) :
    Option (LinkState × Port) :=
  match ls.get_peer src with
  | none => none
  | some dst =>
    some ({ entries := ls.entries.filter (fun e => !(portEq e.1.src src)),
            peerMap := ls.peerMap.filter (fun kv => !(portEq kv.1 src)) },
          dst)

/-- The connected datapath: its id and ofproto module. -/
structure Datapath where
  id : Nat
  ofproto : Ofproto
deriving DecidableEq

/-- The mutable state of a TopologyLocal instance that the verified handlers
touch: the two registries and the (possibly already deleted) datapath. -/
structure AgentState where
  ports : PortDataState
  links : LinkState
  dp : Option Datapath
deriving DecidableEq

/-- Upward notifications sent to the remote controller (self.ryuo). The
link_deleted payloads are the two ports naming the ends (the aging task sends
their .port_data descriptors, which each Port carries). -/
inductive Notification where
  | switch_enter (dpid : Nat) (ports : List PortData)
  | port_added (pd : PortData)
  | port_deleted (p : Port)
  | port_modified (pd : PortData)
  | link_added (src dst : Port)
  | link_deleted (src dst : Port)
deriving DecidableEq

/-- A probe handed to the control channel by send_lldp_packet: the output
port and the precomputed payload. -/
structure ProbeOut where
  port_no : Nat
  data : Nat
deriving DecidableEq

/-- TopologyLocal tunable constants (source lines 24-30), in hundredths of a
second: guard delay between burst sends (source: LLDP_SEND_GUARD = .05). -/
def LLDP_SEND_GUARD : ℤ := 5

/-- Minimum per-port probe interval (source: LLDP_SEND_PERIOD_PER_PORT = .9). -/
def LLDP_SEND_PERIOD_PER_PORT : ℤ := 90

/-- Aging-cycle period (source: TIMEOUT_CHECK_PERIOD = 5.). -/
def TIMEOUT_CHECK_PERIOD : ℤ := 500

/-- Link timeout, twice the check period by construction. -/
def LINK_TIMEOUT : ℤ := TIMEOUT_CHECK_PERIOD * 2

/-- Missed-probe drop threshold (source: LINK_LLDP_DROP = 5). -/
def LINK_LLDP_DROP : Nat := 5

/-- Probe time-to-live constant (source: DEFAULT_TTL = 64). -/
def DEFAULT_TTL : Nat := 64

/-- Modelled from the spec: the external probe payload encoder
(LLDPPacket.lldp_packet, excluded byte-level codec of section 6) as an
injective numeric token of its semantic fields. -/
def lldp_packet_blob (dpid port_no hw_addr ttl : Nat) : Nat :=
  Nat.pair dpid (Nat.pair port_no (Nat.pair hw_addr ttl))

/-- TopologyLocal._get_port (source lines 88-91): scan the registry's keys in
order and return the first port whose number matches; falling off the loop
returns None. Note the lookup is by port number only, with no datapath id. -/
def get_port_by_no : PortDataState → Nat → Option Port
  | [], _ => none
  | (k, _) :: rest, n =>
    if k.port_no == n then some k else get_port_by_no rest n

/-- TopologyLocal.send_lldp_packet (source lines 123-150):
ports.lldp_sent(port) first (KeyError means the port vanished during sleep:
return); only then the is_down check, the deleted-datapath check and the
protocol-version check. The returned probe list is the PacketOut sent, empty
when any check stops the send; the registry mutation made by lldp_sent is
kept in every case. -/
def send_lldp_packet (st : AgentState) (port : Port) (now : ℤ) :
    AgentState × List ProbeOut :=
  match st.ports.lldp_sent port now with
  | .error _ => (st, [])
  | .ok (ports2, port_data) =>
    let st2 := { st with ports := ports2 }
    if port_data.is_down then (st2, [])
    else
      match st2.dp with
      | none => (st2, [])
      | some dp =>
        if OFP_VERSION_1_2 ≤ dp.ofproto.OFP_VERSION then
          (st2, [{ port_no := port.port_no, data := port_data.lldp_data }])
        else (st2, [])

/-- The port-classification pass of TopologyLocal.lldp_loop (source lines
156-171): walk the registry items in order; a port with no timestamp goes to
ports_now, a port whose timestamp + LLDP_SEND_PERIOD_PER_PORT has expired
goes to ports, and the first port whose expiry is still in the future sets
the sleep timeout and breaks the scan. Returns (ports_now, ports, timeout). -/
def lldp_scan : List (Port × PortState) → ℤ → List Port × List Port × Option ℤ
  | [], _ => ([], [], none)
  | (key, data) :: rest, now =>
    match data.timestamp with
    | none =>
      let r := lldp_scan rest now
      (key :: r.1, r.2.1, r.2.2)
    | some ts =>
      let expire := ts + LLDP_SEND_PERIOD_PER_PORT
      if expire ≤ now then
        let r := lldp_scan rest now
        (r.1, key :: r.2.1, r.2.2)
      else ([], [], some (expire - now))

/-- Send probes to each port of a list in order, accumulating the transmitted
packets (the sending halves of the two for-loops of lldp_loop). -/
def send_all : AgentState → List Port → ℤ → AgentState × List ProbeOut
  | st, [], _ => (st, [])
  | st, port :: rest, now =>
    let r1 := send_lldp_packet st port now
    let r2 := send_all r1.1 rest now
    (r2.1, r1.2 ++ r2.2)

/-- One iteration of TopologyLocal.lldp_loop (source lines 152-182): classify
the ports, send to the never-probed ports first (no guard delay), then to the
due ports (the source inserts an LLDP_SEND_GUARD sleep between these, a
real-time effect outside the state model), and compute the timeout passed to
the event wait (`if timeout is not None and ports: timeout = 0`). -/
def lldp_cycle (st : AgentState) (now : ℤ) :
    AgentState × List ProbeOut × Option ℤ :=
  let scan := lldp_scan st.ports now
  let ports_now := scan.1
  let ports := scan.2.1
  let timeout := scan.2.2
  let r1 := send_all st ports_now now
  let r2 := send_all r1.1 ports now
  let timeout2 := if timeout.isSome && !ports.isEmpty then some 0 else timeout
  (r2.1, r1.2 ++ r2.2, timeout2)

/-- TopologyLocal.packet_in_handler (source lines 184-216) on one inbound
frame. `parsed` is the result of the external LLDPPacket.lldp_parse on
msg.data (none on LLDPUnknownFormat, which the source catches and drops);
dpid and ofpVersion come from msg.datapath, in_port from msg.match. On the
path past the drop guards the source evaluates
`Port(PortData(dst_dpid, port_no=dst_port_no))`: the call omits the required
ofpport argument, so it raises TypeError (after the lldp_received registry
update, whose mutation the raise then abandons to the dispatcher). -/
def packet_in_handler (st : AgentState) (parsed : Option (Nat × Nat))
    (dpid : Nat) (ofpVersion : Nat) (in_port : Nat) (now : ℤ) :
    Except PyError (AgentState × List Notification) :=
  match parsed with
  | none => .ok (st, [])
  | some (_src_dpid, src_port_no) =>
    let dst_dpid := dpid
    let _dst_port_no : Option Nat :=
      if OFP_VERSION_1_2 ≤ ofpVersion then some in_port else none
    match get_port_by_no st.ports src_port_no with
    | none => .ok (st, [])
    | some src =>
      if src.dpid == dst_dpid then .ok (st, [])
      else
        let _ports2 :=
          match st.ports.lldp_received src now with
          | .ok ps => ps
          | .error _ => st.ports
        .error .typeError

/-- The retirement test of one link_loop iteration (source lines 226-232):
the entry's timestamp has aged past LINK_TIMEOUT, its source port is in the
port registry, and that port has more than LINK_LLDP_DROP outstanding
probes. -/
def agedOut (ports : PortDataState) (now : ℤ) (lt : Link × ℤ) : Bool :=
  decide (lt.2 + LINK_TIMEOUT < now) &&
    match findPort ports lt.1.src with
    | some port_data => decide (LINK_LLDP_DROP < port_data.sent)
    | none => false

/-- One iteration of TopologyLocal.link_loop (source lines 218-239): collect
every link passing the retirement test, then retire each collected link and
notify its deletion. -/
def link_cycle (st : AgentState) (now : ℤ) : AgentState × List Notification :=
  let deleted := st.links.entries.filter (agedOut st.ports now)
  let links2 := deleted.foldl (fun ls lt => ls.link_down lt.1) st.links
  ({ st with links := links2 },
   deleted.map (fun lt => Notification.link_deleted lt.1.src lt.1.dst))

/-- Count of LinkDeleted notifications naming the two ends of a given link. -/
def countLinkDeleted (l : Link) (ns : List Notification) : Nat :=
  ns.countP (fun n => match n with
    | Notification.link_deleted s d => portEq s l.src && portEq d l.dst
    | _ => false)

/-- A link registry entry list holds no entry for the given link. -/
def linksWithout (es : List (Link × ℤ)) (l : Link) : Bool :=
  es.all (fun e => !(linkEq e.1 l))

/-- The due test of the lldp_loop scan for the port a key maps to: never
probed, or last probed at least the per-port period ago. -/
def scannableBefore (q : PortState) (now : ℤ) : Bool :=
  match q.timestamp with
  | none => true
  | some ts => decide (ts + LLDP_SEND_PERIOD_PER_PORT ≤ now)

/-- A port's registered last-sent timestamp is at least the per-port minimum
interval in the past. -/
def isDueAt (items : List (Port × PortState)) (p : Port) (now : ℤ) : Bool :=
  match findPort items p with
  | some pd =>
    match pd.timestamp with
    | some ts => decide (ts + LLDP_SEND_PERIOD_PER_PORT ≤ now)
    | none => false
  | none => false

/-- TopologyLocal._link_down (source lines 241-246): remove the link whose
source is the given port; a KeyError (no such link) returns silently,
otherwise the deletion of (port, former peer) is notified. -/
def link_down_path (st : AgentState) (port : Port) :
    AgentState × List Notification :=
  match st.links.port_deleted port with
  | none => (st, [])
  | some (links2, dst) =>
    ({ st with links := links2 }, [Notification.link_deleted port dst])

/-- The reason field of an OFPPortStatus message. -/
inductive PortReason where
  | add
  | delete
  | modify
deriving DecidableEq

/-- TopologyLocal._port_status_change (source lines 93-121). Every branch
passes through Port.is_reserved, which raises AttributeError, so a branch
whose port lookup succeeds propagates that error; the code behind the
is_reserved checks is embedded faithfully but is unreachable. -/
def port_status_change (st : AgentState) (reason : PortReason)
    (ofpport : OFPPort) (ofp : Ofproto) : Except PyError (AgentState × List Notification) :=
  match reason with
  | .add => do
    match st.dp with
    | none => .error .attributeError
    | some dp => do
      let pd ← mkPortData dp.id ofpport (some ofp)
      let port := Port.ofPortData pd
      let reserved ← port.is_reserved
      if reserved then .ok (st, [])
      else
        let blob := lldp_packet_blob port.dpid port.port_no port.hw_addr DEFAULT_TTL
        .ok ({ st with ports := st.ports.add_port port blob },
             [Notification.port_added pd])
  | .delete =>
    match get_port_by_no st.ports ofpport.port_no with
    | none => .ok (st, [])
    | some port => do
      let reserved ← port.is_reserved
      if reserved then .ok (st, [])
      else
        match st.dp with
        | none => .error .attributeError
        | some dp => do
          let pdDel ← mkPortData dp.id ofpport none
          let ports2 ← st.ports.del_port (Port.ofPortData pdDel)
          let st2 := { st with ports := ports2 }
          let r := link_down_path st2 port
          .ok (r.1, Notification.port_deleted port :: r.2)
  | .modify =>
    match get_port_by_no st.ports ofpport.port_no with
    | none => .ok (st, [])
    | some port => do
      let reserved ← port.is_reserved
      if reserved then .ok (st, [])
      else do
        let pd2 := { port.port_data with ofpport := ofpport }
        let port2 := { port with port_data := pd2 }
        let r ← st.ports.set_down port2
        let st2 := { st with ports := r.1 }
        let r2 := if r.2 then link_down_path st2 port2 else (st2, [])
        .ok (r2.1, Notification.port_modified pd2 :: r2.2)

/-- The list comprehension of TopologyLocal._register (source line 52):
build a Port over a fresh PortData for every descriptor of the datapath. -/
def build_ports (dpid : Nat) (ofp : Ofproto) :
    List OFPPort → Except PyError (List Port)
  | [] => .ok []
  | p :: rest => do
    let pd ← mkPortData dpid p (some ofp)
    let ports ← build_ports dpid ofp rest
    .ok (Port.ofPortData pd :: ports)

/-- The registration loop of TopologyLocal._register (source lines 53-55):
register every non-reserved port; the is_reserved test raises on the first
port reached. -/
def add_nonreserved : AgentState → List Port → Except PyError AgentState
  | st, [] => .ok st
  | st, port :: rest => do
    let reserved ← port.is_reserved
    let st2 :=
      if reserved then st
      else { st with ports := (st.ports.add_port port
               (lldp_packet_blob port.dpid port.port_no port.hw_addr DEFAULT_TTL)) }
    add_nonreserved st2 rest

/-- TopologyLocal._register (source lines 49-57): store the datapath
(super()._register), install the redirect rule (_init_flows, a control-channel
send with no registry effect), register the non-reserved ports and notify
switch_enter with the registered ports' descriptors. -/
def register_dp (st : AgentState) (dp : Datapath) (dpPorts : List OFPPort) :
    Except PyError (AgentState × List Notification) := do
  let st1 := { st with dp := some dp }
  let portObjs ← build_ports dp.id dp.ofproto dpPorts
  let st2 ← add_nonreserved st1 portObjs
  .ok (st2, [Notification.switch_enter dp.id
              (st2.ports.map (fun kv => kv.1.port_data))])

/-- Concrete fixture: an ofproto module with the usual constants. -/
def ofpX : Ofproto :=
  { OFP_VERSION := 4, OFPP_MAX := 65280, OFPPS_LINK_DOWN := 1,
    OFPPC_PORT_DOWN := 1 }

/-- Concrete fixture: the connected datapath, switch A with dpid 1. -/
def dpA : Datapath := { id := 1, ofproto := ofpX }

/-- Concrete fixture: descriptor of switch A's port 1. -/
def ofppA1 : OFPPort :=
  { port_no := 1, hw_addr := 11, name := 101, state := 0, config := 0 }

/-- Concrete fixture: descriptor of switch A's port 2. -/
def ofppA2 : OFPPort :=
  { port_no := 2, hw_addr := 12, name := 102, state := 0, config := 0 }

/-- Concrete fixture: descriptor of switch B's port 5. -/
def ofppB5 : OFPPort :=
  { port_no := 5, hw_addr := 25, name := 205, state := 0, config := 0 }

/-- Concrete fixture: descriptor of switch B's port 7. -/
def ofppB7 : OFPPort :=
  { port_no := 7, hw_addr := 27, name := 207, state := 0, config := 0 }

/-- Concrete fixture: PortData of (switch A, port 1). -/
def pdA1 : PortData :=
  { dpid := 1, ofpport := ofppA1, OFPP_MAX := 65280, OFPPS_LINK_DOWN := 1,
    OFPPC_Root_DOWN := 1 }

/-- Concrete fixture: PortData of (switch A, port 2). -/
def pdA2 : PortData :=
  { dpid := 1, ofpport := ofppA2, OFPP_MAX := 65280, OFPPS_LINK_DOWN := 1,
    OFPPC_Root_DOWN := 1 }

/-- Concrete fixture: PortData of (switch B, port 5). -/
def pdB5 : PortData :=
  { dpid := 2, ofpport := ofppB5, OFPP_MAX := 65280, OFPPS_LINK_DOWN := 1,
    OFPPC_Root_DOWN := 1 }

/-- Concrete fixture: PortData of (switch B, port 7). -/
def pdB7 : PortData :=
  { dpid := 2, ofpport := ofppB7, OFPP_MAX := 65280, OFPPS_LINK_DOWN := 1,
    OFPPC_Root_DOWN := 1 }

/-- Concrete fixture: Port (switch A, port 1). -/
def portA1 : Port := Port.ofPortData pdA1

/-- Concrete fixture: Port (switch A, port 2). -/
def portA2 : Port := Port.ofPortData pdA2

/-- Concrete fixture: Port (switch B, port 5). -/
def portB5 : Port := Port.ofPortData pdB5

/-- Concrete fixture: Port (switch B, port 7). -/
def portB7 : Port := Port.ofPortData pdB7

/-- Concrete fixture: a Port agreeing with portA1 on dpid and port number but
with different hardware address and name fields. -/
def portA1alt : Port :=
  { dpid := 1, port_no := 1, hw_addr := 99, name := 999, port_data := pdA2 }

/-- Concrete fixture: a freshly registered PortState. -/
def psFresh : PortState :=
  { is_down := false, lldp_data := 7, timestamp := none,
    lastReceivedAt := none, sent := 0 }

/-- Concrete fixture: a down port's PortState, never probed. -/
def psDown : PortState := { psFresh with is_down := true }

/-- Concrete fixture: a port probed at time 0. -/
def psDue0 : PortState := { psFresh with timestamp := some 0 }

/-- Concrete fixture: a port probed at time 1000 (10 seconds in). -/
def psDue10 : PortState := { psFresh with timestamp := some 1000 }

/-- Concrete fixture: a port probed at time 0 with 6 outstanding probes. -/
def psSent6 : PortState := { psFresh with timestamp := some 0, sent := 6 }

/-- Concrete fixture: an empty link registry. -/
def emptyLinks : LinkState := { entries := [], peerMap := [] }

/-- Concrete fixture: the spec scenario state, switch A with registered ports
1 and 2 and no links. -/
def stScenario : AgentState :=
  { ports := [(portA1, psFresh), (portA2, psFresh)], links := emptyLinks,
    dp := some dpA }

/-- Concrete fixture: the directed link from (A,1) to (B,5). -/
def linkW : Link := { src := portA1, dst := portB5 }

/-- Concrete fixture: a state holding the link (A,1)-(B,5), refreshed at time
0, whose source port has 6 outstanding probes. -/
def stAged : AgentState :=
  { ports := [(portA1, psSent6)],
    links := { entries := [(linkW, 0)], peerMap := [(portA1, portB5)] },
    dp := some dpA }

/-- Concrete fixture: a state whose only port is down and never probed. -/
def stDown : AgentState :=
  { ports := [(portA1, psDown)], links := emptyLinks, dp := some dpA }

/-- Concrete fixture: a state whose first port was probed at time 10 and
whose second port was never probed. -/
def stStagger : AgentState :=
  { ports := [(portA1, psDue10), (portA2, psFresh)], links := emptyLinks,
    dp := some dpA }

/-- Concrete fixture: a state holding a port whose dpid (2) differs from the
connected datapath's, so the probe-receipt drop guard lets it through. -/
def stForeign : AgentState :=
  { ports := [(portB7, psFresh)], links := emptyLinks, dp := some dpA }

/-- Concrete fixture: a modified descriptor of port 1 whose link-state down
bit is newly set. -/
def ofppMod : OFPPort :=
  { port_no := 1, hw_addr := 11, name := 101, state := 1, config := 0 }

theorem portEq_iff (a b : Port) :
    portEq a b = true ↔ a.dpid = b.dpid ∧ a.port_no = b.port_no := by
  simp [portEq]

theorem portEq_refl (a : Port) : portEq a a = true := by
  simp [portEq]

theorem portEq_symm (a b : Port) : portEq a b = portEq b a := by
  simp only [portEq]
  rw [Bool.eq_iff_iff]
  simp only [Bool.and_eq_true, beq_iff_eq]
  constructor
  · rintro ⟨h1, h2⟩
    exact ⟨h1.symm, h2.symm⟩
  · rintro ⟨h1, h2⟩
    exact ⟨h1.symm, h2.symm⟩

theorem linkEq_refl (a : Link) : linkEq a a = true := by
  simp [linkEq, portEq_refl]

theorem linkEq_symm (a b : Link) : linkEq a b = linkEq b a := by
  simp [linkEq, portEq_symm a.src b.src, portEq_symm a.dst b.dst]

theorem portEq_right_congr (x a b : Port) (h : portEq a b = true) :
    portEq x a = portEq x b := by
  obtain ⟨h1, h2⟩ := (portEq_iff a b).mp h
  simp [portEq, h1, h2]

theorem findPort_congr (ps : PortDataState) (a b : Port)
    (h : portEq a b = true) : findPort ps a = findPort ps b := by
  induction ps with
  | nil => rfl
  | cons kv rest ih =>
    obtain ⟨k, v⟩ := kv
    simp only [findPort, portEq_right_congr k a b h, ih]

theorem findPort_replaceFirst (ps : PortDataState) (p : Port) (v : PortState)
    (h : (findPort ps p).isSome = true) :
    findPort (replaceFirst ps p v) p = some v := by
  induction ps with
  | nil => simp [findPort] at h
  | cons kv rest ih =>
    obtain ⟨k, w⟩ := kv
    by_cases hk : portEq k p = true
    · simp [findPort, replaceFirst, hk]
    · rw [Bool.not_eq_true] at hk
      simp only [findPort, replaceFirst, hk] at h ⊢
      simp only [Bool.false_eq_true, if_false]
      exact ih h

/-- C7: an inbound frame whose bytes fail to parse as a probe (the external
parser raises LLDPUnknownFormat, embedded as parsed = none) is dropped
silently by packet_in_handler: both registries are returned unchanged and no
upward notification is emitted, for every agent state and message metadata. -/
theorem malformed_probe_dropped_silently (st : AgentState) (dpid : Nat)
    (ofpVersion : Nat) (in_port : Nat) (now : ℤ) :
    packet_in_handler st none dpid ofpVersion in_port now = .ok (st, []) :=
  rfl

/-- C8: two Port values are equal under Port equality exactly when their
switch identifier (dpid) and port number both agree, regardless of hardware
address, name or status fields; and equal Port values have equal hashes. -/
theorem port_eq_hash_by_dpid_port_no (a b : Port) :
    (portEq a b = true ↔ a.dpid = b.dpid ∧ a.port_no = b.port_no) ∧
    (portEq a b = true → portHash a = portHash b) := by
  refine ⟨portEq_iff a b, fun h => ?_⟩
  obtain ⟨h1, h2⟩ := (portEq_iff a b).mp h
  simp [portHash, h1, h2]

/-- Witness for C8 at concrete ports differing in hardware address, name and
carried descriptor but agreeing on (dpid, port number). -/
theorem port_eq_hash_by_dpid_port_no_witness :
    portEq portA1 portA1alt = true ∧ portHash portA1 = portHash portA1alt :=
  ⟨by decide, (port_eq_hash_by_dpid_port_no portA1 portA1alt).2 (by decide)⟩

/-- C1 (the code violates the claim): the spec scenario probe, with payload
reporting (switch B = 2, port 5), arriving on in_port 2 of switch A = 1 with
local ports 1 and 2 registered, is dropped by packet_in_handler: the state
comes back unchanged (the link registry stays empty) and no LinkAdded is
emitted, because _get_port resolves the reported port number among the local
agent's own ports only (no port 5 locally, and a local match would share the
local dpid and hit the self-loop guard). -/
theorem probe_receipt_spec_scenario_dropped :
    packet_in_handler stScenario (some (2, 5)) 1 4 2 100 =
      .ok (stScenario, []) ∧
    stScenario.links.entries = [] := by
  exact ⟨rfl, rfl⟩

/-- C6 (the code violates the claim): a PortModified event for the known,
non-reserved port 1 whose link-state down bit is newly set raises
AttributeError inside Port.is_reserved (which reads the undefined attribute
self.ofpport) before the link-down path can run; the link whose source is
that port is left in the registry and no LinkDeleted is emitted. -/
theorem port_modify_down_transition_raises :
    get_port_by_no stAged.ports ofppMod.port_no = some portA1 ∧
    port_status_change stAged PortReason.modify ofppMod ofpX =
      .error .attributeError := by
  exact ⟨rfl, rfl⟩

/-- C3 counterexample: invoking send_lldp_packet at time 100 on the down,
registered port of stDown transmits nothing, but the port's state is NOT
left unchanged: ports.lldp_sent runs before the is_down check, so the
last-sent timestamp is set to 100 and the missed-probe counter is
incremented, contradicting the claim's "no timestamp update". -/
theorem send_lldp_down_port_state_changed :
    (send_lldp_packet stDown portA1 100).2 = [] ∧
    (send_lldp_packet stDown portA1 100).1 ≠ stDown ∧
    findPort (send_lldp_packet stDown portA1 100).1.ports portA1 =
      some { is_down := true, lldp_data := 7, timestamp := some 100,
             lastReceivedAt := none, sent := 1 } := by
  refine ⟨rfl, by decide, rfl⟩

/-- C3 amended: when send_lldp_packet is invoked for a registered port whose
isDown flag is true, no probe is transmitted, but the markSent update has
already happened: the port's last-sent timestamp is set to now and its
missed-probe counter is incremented; only the transmit is skipped. -/
theorem send_lldp_down_port_amended (st : AgentState) (port : Port)
    (pd : PortState) (now : ℤ)
    (hfind : findPort st.ports port = some pd) (hdown : pd.is_down = true) :
    (send_lldp_packet st port now).2 = [] ∧
    findPort (send_lldp_packet st port now).1.ports port =
      some { pd with timestamp := some now, sent := pd.sent + 1 } := by
  have hsent : st.ports.lldp_sent port now =
      .ok (replaceFirst st.ports port
             { pd with timestamp := some now, sent := pd.sent + 1 },
           { pd with timestamp := some now, sent := pd.sent + 1 }) := by
    simp [PortDataState.lldp_sent, hfind]
  simp only [send_lldp_packet, hsent, hdown]
  exact ⟨rfl, findPort_replaceFirst st.ports port _ (by simp [hfind])⟩

/-- Witness for C3's amended theorem at the concrete down port of stDown. -/
theorem send_lldp_down_port_amended_witness :
    (send_lldp_packet stDown portA1 100).2 = [] ∧
    findPort (send_lldp_packet stDown portA1 100).1.ports portA1 =
      some { psDown with timestamp := some 100, sent := psDown.sent + 1 } :=
  send_lldp_down_port_amended stDown portA1 psDown 100 rfl rfl

theorem mem_scan_due_key (items : List (Port × PortState)) (now : ℤ)
    (p : Port) (h : p ∈ (lldp_scan items now).2.1) : ∃ d, (p, d) ∈ items := by
  induction items with
  | nil => simp [lldp_scan] at h
  | cons kv rest ih =>
    obtain ⟨k, d⟩ := kv
    rcases htt : d.timestamp with _ | ts
    · simp only [lldp_scan, htt] at h
      obtain ⟨d2, hd2⟩ := ih h
      exact ⟨d2, List.mem_cons_of_mem _ hd2⟩
    · by_cases hexp : ts + LLDP_SEND_PERIOD_PER_PORT ≤ now
      · simp only [lldp_scan, htt, if_pos hexp] at h
        rcases List.mem_cons.mp h with heq | hmem
        · exact ⟨d, by simp [heq]⟩
        · obtain ⟨d2, hd2⟩ := ih hmem
          exact ⟨d2, List.mem_cons_of_mem _ hd2⟩
      · simp only [lldp_scan, htt, if_neg hexp] at h
        simp at h

/-- C4: the lldp_loop scan queues a port for a guarded send only when its
recorded last-sent timestamp satisfies lastSentAt + minimum interval <= now;
so, the registry holding one entry per port, no port is probed again less
than LLDP_SEND_PERIOD_PER_PORT after its recorded last send. -/
theorem lldp_queue_respects_min_interval (items : List (Port × PortState))
    (now : ℤ) (p : Port)
    (hpw : items.Pairwise (fun a b => portEq a.1 b.1 = false))
    (hq : p ∈ (lldp_scan items now).2.1) :
    isDueAt items p now = true := by
  induction items with
  | nil => simp [lldp_scan] at hq
  | cons kv rest ih =>
    obtain ⟨k, d⟩ := kv
    rw [List.pairwise_cons] at hpw
    rcases htt : d.timestamp with _ | ts
    · simp only [lldp_scan, htt] at hq
      obtain ⟨d2, hd2⟩ := mem_scan_due_key rest now p hq
      have hkp : portEq k p = false := hpw.1 (p, d2) hd2
      have hred : isDueAt ((k, d) :: rest) p now = isDueAt rest p now := by
        simp [isDueAt, findPort, hkp]
      rw [hred]
      exact ih hpw.2 hq
    · by_cases hexp : ts + LLDP_SEND_PERIOD_PER_PORT ≤ now
      · simp only [lldp_scan, htt, if_pos hexp] at hq
        rcases List.mem_cons.mp hq with heq | hmem
        · subst heq
          simp [isDueAt, findPort, portEq_refl, htt, hexp]
        · obtain ⟨d2, hd2⟩ := mem_scan_due_key rest now p hmem
          have hkp : portEq k p = false := hpw.1 (p, d2) hd2
          have hred : isDueAt ((k, d) :: rest) p now = isDueAt rest p now := by
            simp [isDueAt, findPort, hkp]
          rw [hred]
          exact ih hpw.2 hmem
      · simp only [lldp_scan, htt, if_neg hexp] at hq
        simp at hq

/-- Concrete fixture list: one registered port last probed at time 0. -/
def itemsDue : List (Port × PortState) := [(portA1, psDue0)]

/-- Witness for C4: at time 100 the port probed at time 0 is queued, and its
timestamp indeed satisfies the minimum-interval bound. -/
theorem lldp_queue_respects_min_interval_witness :
    portA1 ∈ (lldp_scan itemsDue 100).2.1 ∧
    isDueAt itemsDue portA1 100 = true :=
  ⟨by decide,
   lldp_queue_respects_min_interval itemsDue 100 portA1 (by simp [itemsDue])
     (by decide)⟩

/-- C5 counterexample: in stStagger the second registered port was never
probed (timestamp none), yet the cycle run at time 1000 sends it nothing:
the first port's next send lies 0.9s in the future, so the scan breaks
before reaching the never-probed port, and the whole cycle emits no probe at
all. The claim's "regardless of its position among the registered ports"
fails. -/
theorem first_probe_not_position_independent :
    findPort stStagger.ports portA2 = some psFresh ∧
    psFresh.timestamp = none ∧
    portA2 ∉ (lldp_scan stStagger.ports 1000).1 ∧
    (lldp_cycle stStagger 1000).2.1 = [] := by
  refine ⟨rfl, rfl, by decide, rfl⟩

/-- C5 amended: a never-probed port is sent a probe in the cycle's immediate
(no guard delay) pass provided every port preceding it in the registry's
iteration order is itself never-probed or already due; the scan stops at the
first not-yet-due port, so a never-probed port behind one waits for a later
cycle. -/
theorem first_probe_fast_path_amended (pre post : List (Port × PortState))
    (p : Port) (pd : PortState) (now : ℤ)
    (hnone : pd.timestamp = none)
    (hpre : pre.all (fun e => scannableBefore e.2 now) = true) :
    p ∈ (lldp_scan (pre ++ (p, pd) :: post) now).1 := by
  induction pre with
  | nil =>
    simp only [List.nil_append, lldp_scan, hnone]
    exact List.mem_cons_self _ _
  | cons kv rest ih =>
    obtain ⟨k, d⟩ := kv
    rw [List.all_cons, Bool.and_eq_true] at hpre
    rcases htt : d.timestamp with _ | ts
    · simp only [List.cons_append, lldp_scan, htt]
      exact List.mem_cons_of_mem _ (ih hpre.2)
    · have hexp : ts + LLDP_SEND_PERIOD_PER_PORT ≤ now := by
        have := hpre.1
        simp only [scannableBefore, htt, decide_eq_true_eq] at this
        exact this
      simp only [List.cons_append, lldp_scan, htt, if_pos hexp]
      exact ih hpre.2

/-- Witness for C5's amended theorem: the never-probed port placed after a
due port is reached and sent immediately at time 100. -/
theorem first_probe_fast_path_amended_witness :
    portA2 ∈ (lldp_scan ([(portA1, psDue10)] ++ (portA2, psFresh) :: []) 2000).1 :=
  first_probe_fast_path_amended [(portA1, psDue10)] [] portA2 psFresh 2000
    rfl (by decide)

theorem link_cycle_entries (st : AgentState) (now : ℤ) :
    (link_cycle st now).1.links.entries =
      ((st.links.entries.filter (agedOut st.ports now)).foldl
        (fun ls lt => ls.link_down lt.1) st.links).entries := rfl

theorem link_cycle_notifs (st : AgentState) (now : ℤ) :
    (link_cycle st now).2 =
      (st.links.entries.filter (agedOut st.ports now)).map
        (fun lt => Notification.link_deleted lt.1.src lt.1.dst) := rfl

theorem mem_foldl_link_down (del : List (Link × ℤ)) (ls : LinkState)
    (e : Link × ℤ) :
    e ∈ (del.foldl (fun a lt => a.link_down lt.1) ls).entries ↔
      e ∈ ls.entries ∧ ∀ d ∈ del, linkEq e.1 d.1 = false := by
  induction del generalizing ls with
  | nil => simp
  | cons d rest ih =>
    rw [List.foldl_cons, ih]
    simp only [LinkState.link_down, List.mem_filter, Bool.not_eq_true',
      List.mem_cons]
    constructor
    · rintro ⟨⟨hmem, hne⟩, hall⟩
      exact ⟨hmem, fun d2 hd2 => by
        rcases hd2 with heq | hd2
        · rw [heq]; exact hne
        · exact hall d2 hd2⟩
    · rintro ⟨hmem, hall⟩
      exact ⟨⟨hmem, hall d (Or.inl rfl)⟩, fun d2 hd2 => hall d2 (Or.inr hd2)⟩

theorem countP_linkEq_of_pairwise (xs : List (Link × ℤ)) (l : Link) (ts : ℤ)
    (hpw : xs.Pairwise (fun a b => linkEq a.1 b.1 = false))
    (hmem : (l, ts) ∈ xs) :
    xs.countP (fun d => linkEq d.1 l) = 1 := by
  induction xs with
  | nil => simp at hmem
  | cons x rest ih =>
    rw [List.pairwise_cons] at hpw
    rcases List.mem_cons.mp hmem with heq | hmem2
    · rw [List.countP_cons_of_pos _ _ (by rw [← heq]; exact linkEq_refl l)]
      have hz : rest.countP (fun d => linkEq d.1 l) = 0 := by
        rw [List.countP_eq_zero]
        intro d hd
        have := hpw.1 d hd
        rw [← heq] at this
        rw [linkEq_symm] at this
        simp [this]
      rw [hz]
    · have hxl : linkEq x.1 l = false := hpw.1 (l, ts) hmem2
      rw [List.countP_cons_of_neg _ _ (by simp [hxl])]
      exact ih hpw.2 hmem2

/-- C2: one aging cycle (link_cycle) never removes a link entry whose source
port's missed-probe count stays below the drop threshold, regardless of the
entry's age, and emits no LinkDeleted for it; and an entry aged past
LINK_TIMEOUT whose source port's missed-probe count exceeds LINK_LLDP_DROP
is removed by that cycle with exactly one LinkDeleted notification and no
duplicate. -/
theorem link_ager_threshold_behaviour (st : AgentState) (now : ℤ) (l : Link)
    (ts : ℤ) (pd : PortState)
    (hpw : st.links.entries.Pairwise (fun a b => linkEq a.1 b.1 = false))
    (hmem : (l, ts) ∈ st.links.entries)
    (hpd : findPort st.ports l.src = some pd) :
    (pd.sent < LINK_LLDP_DROP →
       (l, ts) ∈ (link_cycle st now).1.links.entries ∧
       countLinkDeleted l (link_cycle st now).2 = 0) ∧
    (ts + LINK_TIMEOUT < now → LINK_LLDP_DROP < pd.sent →
       linksWithout (link_cycle st now).1.links.entries l = true ∧
       countLinkDeleted l (link_cycle st now).2 = 1) := by
  constructor
  · intro hlow
    have hA : ∀ d ∈ st.links.entries.filter (agedOut st.ports now),
        linkEq l d.1 = false := by
      intro d hd
      rw [List.mem_filter] at hd
      by_contra hne
      rw [Bool.not_eq_false] at hne
      have hsrc : portEq l.src d.1.src = true := by
        have h2 := hne
        simp only [linkEq, Bool.and_eq_true] at h2
        exact h2.1
      have hfind : findPort st.ports d.1.src = some pd := by
        rw [findPort_congr st.ports d.1.src l.src
          (by rw [portEq_symm]; exact hsrc), hpd]
      have hag := hd.2
      simp only [agedOut, hfind, Bool.and_eq_true, decide_eq_true_eq] at hag
      have := hag.2
      omega
    constructor
    · rw [link_cycle_entries, mem_foldl_link_down]
      exact ⟨hmem, fun d hd => hA d hd⟩
    · rw [link_cycle_notifs]
      simp only [countLinkDeleted, List.countP_map]
      rw [List.countP_eq_zero]
      intro d hd
      have := hA d hd
      rw [linkEq_symm] at this
      simp only [Function.comp]
      simp only [linkEq] at this
      simp [this]
  · intro hage hdrop
    have hdelmem : (l, ts) ∈ st.links.entries.filter (agedOut st.ports now) := by
      rw [List.mem_filter]
      refine ⟨hmem, ?_⟩
      simp [agedOut, hpd, hage, hdrop]
    constructor
    · rw [link_cycle_entries]
      rw [linksWithout, List.all_eq_true]
      intro e he
      rw [mem_foldl_link_down] at he
      have := he.2 (l, ts) hdelmem
      simp [this]
    · rw [link_cycle_notifs]
      simp only [countLinkDeleted, List.countP_map]
      have hpwf : (st.links.entries.filter (agedOut st.ports now)).Pairwise
          (fun a b => linkEq a.1 b.1 = false) :=
        hpw.sublist (List.filter_sublist _)
      have := countP_linkEq_of_pairwise _ l ts hpwf hdelmem
      rw [← this]
      rfl

/-- Witness for C2's aged-out branch: in stAged (link refreshed at 0, source
port with 6 outstanding probes) the cycle at time 2000 removes the link and
emits exactly one LinkDeleted. -/
theorem link_ager_threshold_behaviour_witness :
    linksWithout (link_cycle stAged 2000).1.links.entries linkW = true ∧
    countLinkDeleted linkW (link_cycle stAged 2000).2 = 1 :=
  (link_ager_threshold_behaviour stAged 2000 linkW 0 psSent6
      (by simp [stAged]) (by simp [stAged]) rfl).2 (by decide) (by decide)

theorem build_ports_ok (dpid : Nat) (ofp : Ofproto) (l : List OFPPort) :
    ∃ ps, build_ports dpid ofp l = .ok ps := by
  induction l with
  | nil => exact ⟨[], rfl⟩
  | cons p rest ih =>
    obtain ⟨ps, hps⟩ := ih
    refine ⟨Port.ofPortData
      { dpid := dpid, ofpport := p, OFPP_MAX := ofp.OFPP_MAX,
        OFPPS_LINK_DOWN := ofp.OFPPS_LINK_DOWN,
        OFPPC_Root_DOWN := ofp.OFPPC_PORT_DOWN } :: ps, ?_⟩
    simp only [build_ports, mkPortData, hps]
    rfl

/-- C9: constructing a PortData with its ofproto argument left at the default
None never completes normally (the constructor unconditionally reads
ofproto.OFPP_MAX); accordingly, the port-deleted branch of the port-status
handler raises instead of finishing for every known port, and the
probe-receipt handler raises instead of finishing whenever its drop guards
let a frame through to the destination-port construction (whose PortData
call, omitting the required ofpport too, dies with TypeError). -/
theorem portdata_none_ofproto_raises :
    (∀ (dpid : Nat) (ofpport : OFPPort),
       mkPortData dpid ofpport none = .error .attributeError) ∧
    (∀ (st : AgentState) (ofpport : OFPPort) (ofp : Ofproto) (port : Port),
       get_port_by_no st.ports ofpport.port_no = some port →
       port_status_change st PortReason.delete ofpport ofp =
         .error .attributeError) ∧
    (∀ (st : AgentState) (sd spn dpid v ip : Nat) (now : ℤ) (src : Port),
       get_port_by_no st.ports spn = some src →
       (src.dpid == dpid) = false →
       packet_in_handler st (some (sd, spn)) dpid v ip now =
         .error .typeError) := by
  refine ⟨fun dpid ofpport => rfl, ?_, ?_⟩
  · intro st ofpport ofp port h
    simp only [port_status_change, h]
    rfl
  · intro st sd spn dpid v ip now src h hne
    simp only [packet_in_handler, h, hne]
    rfl

/-- Witness for C9 at concrete inputs: the bare constructor call; a
PortDeleted event for the known port 1 of the scenario state; and a probe
whose reported port number resolves to a registered port of another dpid, so
the drop guards pass. -/
theorem portdata_none_ofproto_raises_witness :
    mkPortData 1 ofppA1 none = .error .attributeError ∧
    port_status_change stScenario PortReason.delete ofppA1 ofpX =
      .error .attributeError ∧
    packet_in_handler stForeign (some (9, 7)) 1 4 2 100 =
      .error .typeError :=
  ⟨portdata_none_ofproto_raises.1 1 ofppA1,
   portdata_none_ofproto_raises.2.1 stScenario ofppA1 ofpX portA1 rfl,
   portdata_none_ofproto_raises.2.2 stForeign 9 7 1 4 2 100 portB7 rfl rfl⟩

/-- C10: Port.is_reserved raises AttributeError for every constructed Port
(it reads self.ofpport, which Port.__init__ never defines: descriptor and
bound live on self.port_data); consequently every event path that filters
reserved ports fails when it reaches this check: the port-added branch
always raises, the port-deleted and port-modified branches raise for every
known port, and switch registration raises whenever the port list is
nonempty. -/
theorem is_reserved_always_raises :
    (∀ pd : PortData,
       (Port.ofPortData pd).is_reserved = .error .attributeError) ∧
    (∀ (st : AgentState) (ofpport : OFPPort) (ofp : Ofproto),
       port_status_change st PortReason.add ofpport ofp =
         .error .attributeError) ∧
    (∀ (st : AgentState) (ofpport : OFPPort) (ofp : Ofproto) (port : Port),
       get_port_by_no st.ports ofpport.port_no = some port →
       port_status_change st PortReason.delete ofpport ofp =
         .error .attributeError) ∧
    (∀ (st : AgentState) (ofpport : OFPPort) (ofp : Ofproto) (port : Port),
       get_port_by_no st.ports ofpport.port_no = some port →
       port_status_change st PortReason.modify ofpport ofp =
         .error .attributeError) ∧
    (∀ (st : AgentState) (dp : Datapath) (p : OFPPort)
       (rest : List OFPPort),
       register_dp st dp (p :: rest) = .error .attributeError) := by
  refine ⟨fun pd => rfl, ?_, ?_, ?_, ?_⟩
  · intro st ofpport ofp
    cases hdp : st.dp with
    | none => simp only [port_status_change, hdp]
    | some dp =>
      simp only [port_status_change, hdp]
      rfl
  · intro st ofpport ofp port h
    simp only [port_status_change, h]
    rfl
  · intro st ofpport ofp port h
    simp only [port_status_change, h]
    rfl
  · intro st dp p rest
    obtain ⟨ps, hps⟩ := build_ports_ok dp.id dp.ofproto rest
    simp only [register_dp, build_ports, mkPortData, hps]
    rfl

/-- Concrete fixture: an agent state before any switch attaches. -/
def stEmpty : AgentState := { ports := [], links := emptyLinks, dp := none }

/-- Witness for C10 at concrete inputs: Port of PortData (A,1); PortAdded for
a fresh descriptor; PortDeleted and PortModified for the known port 2; and
registration of switch A with a two-port list. -/
theorem is_reserved_always_raises_witness :
    (Port.ofPortData pdA1).is_reserved = .error .attributeError ∧
    port_status_change stScenario PortReason.add ofppB5 ofpX =
      .error .attributeError ∧
    port_status_change stScenario PortReason.delete ofppA2 ofpX =
      .error .attributeError ∧
    port_status_change stScenario PortReason.modify ofppA2 ofpX =
      .error .attributeError ∧
    register_dp stEmpty dpA [ofppA1, ofppA2] = .error .attributeError :=
  ⟨is_reserved_always_raises.1 pdA1,
   is_reserved_always_raises.2.1 stScenario ofppB5 ofpX,
   is_reserved_always_raises.2.2.1 stScenario ofppA2 ofpX portA2 rfl,
   is_reserved_always_raises.2.2.2.1 stScenario ofppA2 ofpX portA2 rfl,
   is_reserved_always_raises.2.2.2.2 stEmpty dpA ofppA1 [ofppA2]⟩

end Ryuo
